import Mathlib

/-!
Verification of the markdown-to-confluence rendering core (`convert.py`,
with `Article.absolute_director` from `record.py`).

The embedding below translates, line for line, the Python code of
`ConfluenceRenderer` (layout composition, warning banner, author block,
table of contents, code blocks, image/attachment resolution) together
with the pieces of the Python standard library the renderer calls:
`html.escape`, `posixpath.join` / `normpath` / `dirname` / `basename`
(the code runs on POSIX), and the netloc extraction of
`urllib.parse.urlparse`.
-/

namespace MdToConf

/-- Model of CPython `html.escape(s, quote=True)`.  The CPython code performs
five sequential `str.replace` calls, `&` first; because none of the
replacement texts contains a character that a *later* replace rewrites, the
sequential replaces coincide with this single character-wise substitution. -/
def escapeChar (c : Char) : String :=
  if c = '&' then "&amp;"
  else if c = '<' then "&lt;"
  else if c = '>' then "&gt;"
  else if c = '"' then "&quot;"
  else if c = '\'' then "&#x27;"
  else String.singleton c

/-- Character-list worker for `htmlEscape`. -/
def escapeList : List Char → List Char
  | [] => []
  | c :: cs => (escapeChar c).data ++ escapeList cs

/-- Model of `html.escape` with the default `quote=True`, as called by
`ConfluenceRenderer._render_warning`. -/
def htmlEscape (s : String) : String := ⟨escapeList s.data⟩

/-- Model of `posixpath.basename`: the part of the path after the last
slash (`p[p.rfind('/')+1:]`). -/
def basename (p : String) : String :=
  ⟨(p.data.reverse.takeWhile (fun c => c != '/')).reverse⟩

/-- Model of `posixpath.dirname`: everything up to (and normally excluding)
the last slash; a head made only of slashes is kept as is, otherwise
trailing slashes are stripped. -/
def dirname (p : String) : String :=
  let head := (p.data.reverse.dropWhile (fun c => c != '/')).reverse
  if head ≠ [] ∧ head.any (fun c => c != '/') then
    ⟨(head.reverse.dropWhile (fun c => c = '/')).reverse⟩
  else ⟨head⟩

/-- Model of two-argument `posixpath.join(a, b)`: an absolute `b` replaces
`a`; otherwise `b` is appended, with a separating slash unless `a` is empty
or already ends in a slash. -/
def joinPath (a b : String) : String :=
  if b.data.head? = some '/' then b
  else if a = "" ∨ a.data.getLast? = some '/' then a ++ b
  else a ++ "/" ++ b

/-- Helper: `text.split('/')` on a character list, as used by `posixpath.normpath`. -/
def splitSlash : List Char → List Char → List String
  | [], acc => [⟨acc.reverse⟩]
  | c :: rest, acc =>
    if c = '/' then ⟨acc.reverse⟩ :: splitSlash rest []
    else splitSlash rest (c :: acc)

/-- The component loop of `posixpath.normpath`: drop empty and `.`
components, and let `..` cancel a preceding real component (except at an
absolute root, and except when only `..`s have accumulated in a relative
path).  `acc` holds the kept components in reverse. -/
def normComps (hasRoot : Bool) : List String → List String → List String
  | [], acc => acc.reverse
  | c :: rest, acc =>
    if c = "" ∨ c = "." then normComps hasRoot rest acc
    else if c ≠ ".." ∨ (¬ hasRoot ∧ acc = []) ∨ acc.head? = some ".." then
      normComps hasRoot rest (c :: acc)
    else if acc ≠ [] then normComps hasRoot rest acc.tail
    else normComps hasRoot rest acc

/-- Model of `posixpath.normpath`: empty input becomes `.`; one or three or
more leading slashes collapse to one, exactly two are kept (POSIX allows
`//` to be special); components are normalized by `normComps`. -/
def normpath (p : String) : String :=
  if p = "" then "." else
  let lead := (p.data.takeWhile (fun c => c = '/')).length
  let slashes : Nat := if lead = 0 then 0 else if lead = 2 then 2 else 1
  let comps := normComps (slashes ≠ 0) (splitSlash p.data []) []
  let res : String := ⟨List.replicate slashes '/'⟩ ++ String.intercalate "/" comps
  if res = "" then "." else res

/-- A character allowed in a URL scheme (`urllib.parse.scheme_chars`):
ASCII letters and digits, `+`, `-`, `.`. -/
def schemeChar (c : Char) : Bool := c.isAlphanum || c = '+' || c = '-' || c = '.'

/-- The scheme-splitting step of `urllib.parse.urlsplit` (CPython ≥ 3.11):
when the text up to the first `:` is nonempty, starts with an ASCII letter
and consists of scheme characters, the scheme and the colon are removed;
otherwise the URL is left untouched. -/
def splitScheme (url : String) : String :=
  let cs := url.data
  let pre := cs.takeWhile (fun c => c != ':')
  if pre.length < cs.length ∧ pre ≠ [] ∧ (pre.headD ' ').isAlpha ∧ pre.all schemeChar then
    ⟨cs.drop (pre.length + 1)⟩
  else url

/-- Model of `urllib.parse.urlparse(url).netloc`: after scheme removal, a leading
`//` introduces the authority, which extends to the next `/`, `?` or `#`;
without a leading `//` the netloc is empty. -/
def netloc (url : String) : String :=
  match (splitScheme url).data with
  | '/' :: '/' :: tail => ⟨tail.takeWhile (fun c => !(c = '/' || c = '?' || c = '#'))⟩
  | _ => ""

/-- The document descriptor (`record.py`, `Article`), restricted to the
fields the renderer reads. -/
structure Article where
  absolute_path : String
  relative_path : String
deriving DecidableEq

/-- Property `Article.absolute_director` (`record.py`): `os.path.dirname` of the
absolute path. -/
def Article.absolute_director (a : Article) : String := dirname a.absolute_path

/-- The renderer's `warning` option, typed `Union[bool, str]` in Python. -/
inductive WarningSetting where
  | flag (b : Bool)
  | text (s : String)
deriving DecidableEq

/-- Python truthiness of a `Union[bool, str]` value: `False` and the empty
string are falsy, everything else truthy. -/
def WarningSetting.truthy : WarningSetting → Bool
  | .flag b => b
  | .text s => s ≠ ""

/-- The mutable state and configuration of one `ConfluenceRenderer`
instance, exactly the attributes set in `__init__`. -/
structure ConfluenceRenderer where
  attachments : List String
  authors : List String
  has_toc : Bool
  render_toc : Bool
  article : Article
  warning : WarningSetting
  two_column_layout : Bool
deriving DecidableEq

/-- Constructor `ConfluenceRenderer.__init__`: fresh empty attachment list, `None`
authors coerced to the empty list, `has_toc` cleared, options stored. -/
def ConfluenceRenderer.init (article : Article) (authors : Option (List String))
    (warning : WarningSetting) (render_toc : Bool) (two_column_layout : Bool) :
    ConfluenceRenderer :=
  { attachments := []
    authors := authors.getD []
    has_toc := false
    render_toc := render_toc
    article := article
    warning := warning
    two_column_layout := two_column_layout }

/-- Template `full_with_template.format(x)`: the class-level template after
`textwrap.dedent` (common 8-space margin removed, whitespace-only last
line blanked). -/
def full_with_template (x : String) : String :=
  "\n<ac:layout-section ac:type=\"fixed-width\" ac:breakout-mode=\"default\">\n    <ac:layout-cell>\n        "
    ++ x ++ "\n    </ac:layout-cell>\n</ac:layout-section>\n"

/-- Template `two_column_template.format(sidebar=s, main_content=m)` after
`textwrap.dedent`. -/
def two_column_template (sidebar main_content : String) : String :=
  "\n<ac:layout-section ac:type=\"two_left_sidebar\" ac:breakout-mode=\"default\">\n    <ac:layout-cell>\n        "
    ++ sidebar
    ++ "\n    </ac:layout-cell><ac:layout-cell>\n        "
    ++ main_content
    ++ "\n    </ac:layout-cell>\n</ac:layout-section>\n"

/-- Template `page_template.format(x)` after `textwrap.dedent` (12-space margin). -/
def page_template (x : String) : String :=
  "\n<ac:layout>\n    " ++ x ++ "\n</ac:layout>\n"

/-- The dedented table-of-contents block assigned to `toc` in
`ConfluenceRenderer.layout` when it is emitted (16-space margin removed). -/
def toc_fragment : String :=
  "\n<h1>Table of Contents</h1>\n<p><ac:structured-macro ac:name=\"toc\" ac:schema-version=\"1\">\n    <ac:parameter ac:name=\"exclude\">^(Authors|Table of Contents)$</ac:parameter>\n</ac:structured-macro></p>\n"

/-- The value of the local `toc` in `ConfluenceRenderer.layout`: the fixed
block when `self.has_toc and self.render_toc`, else the empty string. -/
def ConfluenceRenderer.tocOf (self : ConfluenceRenderer) : String :=
  if self.has_toc ∧ self.render_toc then toc_fragment else ""

/-- The default warning copy used when `warning == True`. -/
def default_warning_copy : String :=
  "This page is automatically generated and can be overwritten. Please don't modify it here."

/-- Template `warning_template.format(copy=x)` from `_render_warning`. -/
def warning_template (x : String) : String :=
  "<ac:structured-macro ac:name=\"note\" ac:schema-version=\"1\" ac:macro-id=\"f5f3fbe6-6a62-4eb2-867b-3e1254cef301\"><ac:rich-text-body><p>"
    ++ x ++ "</p></ac:rich-text-body></ac:structured-macro>"

/-- Method `ConfluenceRenderer._render_warning`: nothing when the setting is
falsy; the default copy when it is the boolean `True`, otherwise the
custom text; the copy is passed through `html.escape`.  (The `print`
call in the Python body is an I/O side effect with no bearing on the
returned string.) -/
def ConfluenceRenderer._render_warning (self : ConfluenceRenderer) : String :=
  if self.warning.truthy then
    let warning_copy :=
      match self.warning with
      | .flag _ => default_warning_copy
      | .text s => s
    warning_template (htmlEscape warning_copy)
  else ""

/-- Template `author_template.format(user_key=k)` from `render_authors`: a plain
(non-dedented) triple-quoted template, so the source indentation is part
of the string; the key is substituted at both placeholders. -/
def author_template (user_key : String) : String :=
  "<ac:structured-macro ac:name=\"profile-picture\" ac:schema-version=\"1\">\n                    <ac:parameter ac:name=\"User\"><ri:user ri:userkey=\""
    ++ user_key
    ++ "\" /></ac:parameter>\n                </ac:structured-macro>&nbsp;\n                <ac:link><ri:user ri:userkey=\""
    ++ user_key
    ++ "\" /></ac:link>"

/-- Method `ConfluenceRenderer.render_authors`: for a nonempty author list, an
`Authors` heading followed by the per-author fragments joined with
`<br />`; otherwise the empty string. -/
def ConfluenceRenderer.render_authors (self : ConfluenceRenderer) : String :=
  if self.authors.length > 0 then
    "<h1>Authors</h1><p>"
      ++ String.intercalate "<br />" (self.authors.map author_template)
      ++ "</p>"
  else ""

/-- Method `ConfluenceRenderer.layout`: compute `toc`, `authors`, `warning`; when
two-column layout is on and the sidebar material is truthy, wrap the
(full-width) warning and the two-column section in the page template,
otherwise concatenate warning, toc, authors and body. -/
def ConfluenceRenderer.layout (self : ConfluenceRenderer) (content : String) : String :=
  let toc := self.tocOf
  let authors := self.render_authors
  let warning := self._render_warning
  if self.two_column_layout ∧ (toc ≠ "" ∨ authors ≠ "") then
    page_template
      ((if warning ≠ "" then full_with_template warning else warning)
        ++ two_column_template (toc ++ authors) content)
  else
    warning ++ toc ++ authors ++ content

/-- The state effect of `ConfluenceRenderer.header`: it sets `has_toc` and
otherwise delegates the produced fragment to the generic `mistune`
renderer (an external collaborator, out of scope here). -/
def ConfluenceRenderer.header (self : ConfluenceRenderer) : ConfluenceRenderer :=
  { self with has_toc := true }

/-- Python `lang or ''` for the optional code-block language tag. -/
def langOrEmpty : Option String → String
  | none => ""
  | some l => l

/-- Method `ConfluenceRenderer.block_code`: the dedented code macro with the
language parameter and the payload inserted verbatim into the CDATA
section. -/
def block_code (code : String) (lang : Option String) : String :=
  "<ac:structured-macro ac:name=\"code\" ac:schema-version=\"1\">\n    <ac:parameter ac:name=\"language\">"
    ++ langOrEmpty lang
    ++ "</ac:parameter>\n    <ac:plain-text-body><![CDATA["
    ++ code
    ++ "]]></ac:plain-text-body>\n</ac:structured-macro>\n"

/-- Method `ConfluenceRenderer.image`: classify by `urlparse(src).netloc`; an
external image passes the source through a `ri:url` reference; a local one
is resolved against the article's directory, appended to the attachment
list and referenced by base filename.  `title` and `alt_text` are accepted
and ignored, as in the source.  Returns the updated state and the
fragment. -/
def ConfluenceRenderer.image (self : ConfluenceRenderer)
    (src title alt_text : String) : ConfluenceRenderer × String :=
  let is_external := netloc src ≠ ""
  if is_external then
    (self, "<ac:image><ri:url ri:value=\"" ++ src ++ "\" /></ac:image>")
  else
    let image_path := normpath (joinPath self.article.absolute_director src)
    ({ self with attachments := self.attachments ++ [image_path] },
      "<ac:image><ri:attachment ri:filename=\"" ++ basename image_path ++ "\" /></ac:image>")

/-- Predicate: `hay` contains `needle` as a contiguous substring. -/
def strContains (hay needle : String) : Prop := ∃ s t, hay = s ++ needle ++ t

/-- The fixed text before the language parameter in a code-block fragment. -/
def code_block_head : String :=
  "<ac:structured-macro ac:name=\"code\" ac:schema-version=\"1\">\n    <ac:parameter ac:name=\"language\">"

/-- The fixed text between the language parameter and the CDATA payload. -/
def code_block_mid : String :=
  "</ac:parameter>\n    <ac:plain-text-body><![CDATA["

/-- The fixed text after the CDATA payload. -/
def code_block_tail : String :=
  "]]></ac:plain-text-body>\n</ac:structured-macro>\n"

/-- The fixed text of the warning banner before the escaped copy. -/
def warning_head : String :=
  "<ac:structured-macro ac:name=\"note\" ac:schema-version=\"1\" ac:macro-id=\"f5f3fbe6-6a62-4eb2-867b-3e1254cef301\"><ac:rich-text-body><p>"

/-- The fixed text of the warning banner after the escaped copy. -/
def warning_tail : String :=
  "</p></ac:rich-text-body></ac:structured-macro>"

/-- The fixed text of an author fragment before the first user key (it
opens the profile-picture structured macro). -/
def author_head : String :=
  "<ac:structured-macro ac:name=\"profile-picture\" ac:schema-version=\"1\">\n                    <ac:parameter ac:name=\"User\"><ri:user ri:userkey=\""

/-- The fixed text of an author fragment between the two user keys (it
closes the profile-picture macro and opens the user link). -/
def author_mid : String :=
  "\" /></ac:parameter>\n                </ac:structured-macro>&nbsp;\n                <ac:link><ri:user ri:userkey=\""

/-- The fixed text of an author fragment after the second user key. -/
def author_tail : String := "\" /></ac:link>"

/-- The opening text of `page_template`. -/
def page_head : String := "\n<ac:layout>\n    "

/-- The closing text of `page_template`. -/
def page_tail : String := "\n</ac:layout>\n"

/-- The opening text of `full_with_template`. -/
def full_width_head : String :=
  "\n<ac:layout-section ac:type=\"fixed-width\" ac:breakout-mode=\"default\">\n    <ac:layout-cell>\n        "

/-- The closing text of `full_with_template`. -/
def full_width_tail : String := "\n    </ac:layout-cell>\n</ac:layout-section>\n"

/-- The opening text of `two_column_template` (before the sidebar). -/
def two_col_head : String :=
  "\n<ac:layout-section ac:type=\"two_left_sidebar\" ac:breakout-mode=\"default\">\n    <ac:layout-cell>\n        "

/-- The text of `two_column_template` between sidebar and main content. -/
def two_col_mid : String := "\n    </ac:layout-cell><ac:layout-cell>\n        "

/-- The closing text of `two_column_template`. -/
def two_col_tail : String := "\n    </ac:layout-cell>\n</ac:layout-section>\n"

/-- The exclude parameter carried by the emitted TOC macro. -/
def toc_exclude_param : String :=
  "<ac:parameter ac:name=\"exclude\">^(Authors|Table of Contents)$</ac:parameter>"

/-- Comparison assembly for the no-TOC case: the page composed exactly as
`layout` composes it, but with no TOC component anywhere (the sidebar of a
two-column page holds only the author block, and the sidebar-nonempty test
looks only at the author block). -/
def layoutNoToc (st : ConfluenceRenderer) (content : String) : String :=
  let authors := st.render_authors
  let warning := st._render_warning
  if st.two_column_layout ∧ authors ≠ "" then
    page_template
      ((if warning ≠ "" then full_with_template warning else warning)
        ++ two_column_template authors content)
  else warning ++ authors ++ content

/-- A concrete article used by the concrete-input theorems. -/
def sampleArticle : Article :=
  { absolute_path := "/docs/posts/intro.md", relative_path := "posts/intro.md" }

/- ------------------------------------------------------------------ -/
/- Theorems                                                            -/
/- ------------------------------------------------------------------ -/

theorem str_eq_of_data {s t : String} (h : s.data = t.data) : s = t := by
  cases s; cases t; exact congrArg String.mk h

theorem empty_append_str (s : String) : "" ++ s = s := rfl

/-- Unfolding equation for `layout` with its `let`s substituted. -/
theorem layout_eq (st : ConfluenceRenderer) (content : String) :
    st.layout content =
      if st.two_column_layout ∧ (st.tocOf ≠ "" ∨ st.render_authors ≠ "") then
        page_template
          ((if st._render_warning ≠ ""
            then full_with_template st._render_warning else st._render_warning)
            ++ two_column_template (st.tocOf ++ st.render_authors) content)
      else st._render_warning ++ st.tocOf ++ st.render_authors ++ content := rfl

theorem escapeChar_no_markup (x c : Char) (h : c ∈ (escapeChar x).data) :
    c ≠ '<' ∧ c ≠ '>' ∧ c ≠ '"' := by
  by_cases h1 : x = '&'
  · rw [escapeChar, if_pos h1] at h
    have e : ("&amp;" : String).data = ['&', 'a', 'm', 'p', ';'] := rfl
    rw [e] at h
    fin_cases h <;> exact ⟨by decide, by decide, by decide⟩
  · by_cases h2 : x = '<'
    · rw [escapeChar, if_neg h1, if_pos h2] at h
      have e : ("&lt;" : String).data = ['&', 'l', 't', ';'] := rfl
      rw [e] at h
      fin_cases h <;> exact ⟨by decide, by decide, by decide⟩
    · by_cases h3 : x = '>'
      · rw [escapeChar, if_neg h1, if_neg h2, if_pos h3] at h
        have e : ("&gt;" : String).data = ['&', 'g', 't', ';'] := rfl
        rw [e] at h
        fin_cases h <;> exact ⟨by decide, by decide, by decide⟩
      · by_cases h4 : x = '"'
        · rw [escapeChar, if_neg h1, if_neg h2, if_neg h3, if_pos h4] at h
          have e : ("&quot;" : String).data = ['&', 'q', 'u', 'o', 't', ';'] := rfl
          rw [e] at h
          fin_cases h <;> exact ⟨by decide, by decide, by decide⟩
        · by_cases h5 : x = '\''
          · rw [escapeChar, if_neg h1, if_neg h2, if_neg h3, if_neg h4, if_pos h5] at h
            have e : ("&#x27;" : String).data = ['&', '#', 'x', '2', '7', ';'] := rfl
            rw [e] at h
            fin_cases h <;> exact ⟨by decide, by decide, by decide⟩
          · rw [escapeChar, if_neg h1, if_neg h2, if_neg h3, if_neg h4, if_neg h5] at h
            have e : (String.singleton x).data = [x] := rfl
            rw [e] at h
            rcases List.mem_singleton.mp h with rfl
            exact ⟨h2, h3, h4⟩

theorem mem_escapeList {c : Char} {l : List Char} (h : c ∈ escapeList l) :
    ∃ x ∈ l, c ∈ (escapeChar x).data := by
  induction l with
  | nil => simp [escapeList] at h
  | cons a as ih =>
    rw [escapeList] at h
    rcases List.mem_append.mp h with h1 | h2
    · exact ⟨a, List.mem_cons_self a as, h1⟩
    · obtain ⟨x, hx, hc⟩ := ih h2
      exact ⟨x, List.mem_cons_of_mem a hx, hc⟩

theorem htmlEscape_no_markup (s : String) (c : Char) (h : c ∈ (htmlEscape s).data) :
    c ≠ '<' ∧ c ≠ '>' ∧ c ≠ '"' := by
  obtain ⟨x, _, hc⟩ := mem_escapeList h
  exact escapeChar_no_markup x c hc

/-- C4: for every code payload and language tag, `block_code` embeds the
payload byte-for-byte between the fixed frame around the CDATA section
(so stripping the frame lengths from the fragment recovers the payload
exactly) and its language parameter is the given tag, with an absent
(`None`) tag rendered as the empty string; the operation is total, never
an error. -/
theorem C4_block_code_roundtrip (code : String) (lang : Option String) :
    block_code code lang =
      code_block_head ++ langOrEmpty lang ++ code_block_mid ++ code ++ code_block_tail ∧
    ((block_code code lang).data.drop
        (code_block_head ++ langOrEmpty lang ++ code_block_mid).data.length).take
      ((block_code code lang).data.length
        - (code_block_head ++ langOrEmpty lang ++ code_block_mid).data.length
        - code_block_tail.data.length) = code.data ∧
    block_code code none
      = code_block_head ++ "" ++ code_block_mid ++ code ++ code_block_tail := by
  refine ⟨rfl, ?_, rfl⟩
  have hdata : (block_code code lang).data
      = (code_block_head ++ langOrEmpty lang ++ code_block_mid).data
          ++ (code.data ++ code_block_tail.data) := by
    simp [block_code, code_block_head, code_block_mid, code_block_tail,
      String.data_append, List.append_assoc]
  rw [hdata, List.drop_left]
  have hlen : ((code_block_head ++ langOrEmpty lang ++ code_block_mid).data
        ++ (code.data ++ code_block_tail.data)).length
      - (code_block_head ++ langOrEmpty lang ++ code_block_mid).data.length
      - code_block_tail.data.length = code.data.length := by
    simp [List.length_append]
    omega
  rw [hlen, List.take_left]

/-- C7: the warning banner is empty exactly when the configured setting is
falsy; with the boolean `True` it is the fixed template around the
escaped default copy; with a (nonempty) custom string it is the template
around the escaped custom text; and the escaped copy contains no unescaped
`<`, `>` or `\x22`, so none of the markup-significant characters of the
configured text reaches the output unescaped. -/
theorem C7_warning_banner (st : ConfluenceRenderer) :
    (st.warning.truthy = false → st._render_warning = "") ∧
    (st.warning = .flag true →
      st._render_warning = warning_head ++ htmlEscape default_warning_copy ++ warning_tail) ∧
    (∀ s, s ≠ "" → st.warning = .text s →
      st._render_warning = warning_head ++ htmlEscape s ++ warning_tail) ∧
    (∀ s, ∀ c ∈ (htmlEscape s).data, c ≠ '<' ∧ c ≠ '>' ∧ c ≠ '"') := by
  refine ⟨?_, ?_, ?_, fun s c h => htmlEscape_no_markup s c h⟩
  · intro h
    rw [ConfluenceRenderer._render_warning, if_neg]
    simp [h]
  · intro h
    rw [ConfluenceRenderer._render_warning, if_pos]
    · rw [h]; rfl
    · rw [h]; rfl
  · intro s hs h
    rw [ConfluenceRenderer._render_warning, if_pos]
    · rw [h]; rfl
    · rw [h]; simpa [WarningSetting.truthy] using hs

theorem basename_no_slash (p : String) : ∀ c ∈ (basename p).data, c ≠ '/' := by
  intro c hc
  have hc' : c ∈ (p.data.reverse.takeWhile (fun c => c != '/')).reverse := hc
  have := List.mem_takeWhile_imp (List.mem_reverse.mp hc')
  simpa using this

/-- C8: with an empty author list the author block is empty (so the page
carries no `Authors` heading); with a nonempty list it is the `Authors`
heading followed by exactly one fragment per identifier, in order, joined
by `<br />`, where each fragment shows the profile picture of the key and
links to that user. -/
theorem C8_author_block (st : ConfluenceRenderer) :
    (st.authors = [] → st.render_authors = "") ∧
    (st.authors ≠ [] →
      st.render_authors =
        "<h1>Authors</h1><p>"
          ++ String.intercalate "<br />" (st.authors.map author_template)
          ++ "</p>") ∧
    (∀ k, author_template k = author_head ++ k ++ author_mid ++ k ++ author_tail) := by
  refine ⟨?_, ?_, fun k => rfl⟩
  · intro h
    rw [ConfluenceRenderer.render_authors, if_neg]
    rw [h]
    simp
  · intro h
    rw [ConfluenceRenderer.render_authors, if_pos]
    exact List.length_pos.mpr h

/-- C9: constructing the renderer with `authors=None` yields exactly the
state obtained with an empty author list (the constructor does not fail),
and any state whose author list is empty renders an empty author block,
before and after further `header`/`image` callbacks (which never touch the
author list). -/
theorem C9_authors_none (a : Article) (w : WarningSetting) (rt tc : Bool) :
    ConfluenceRenderer.init a none w rt tc = ConfluenceRenderer.init a (some []) w rt tc ∧
    (ConfluenceRenderer.init a none w rt tc).render_authors = "" ∧
    (∀ st : ConfluenceRenderer, st.authors = [] →
      st.render_authors = "" ∧ st.header.authors = [] ∧
      ∀ src title alt, ((st.image src title alt).1).authors = []) := by
  refine ⟨rfl, ?_, fun st h => ⟨?_, ?_, ?_⟩⟩
  · rw [ConfluenceRenderer.render_authors, if_neg]
    simp [ConfluenceRenderer.init]
  · rw [ConfluenceRenderer.render_authors, if_neg]
    rw [h]; simp
  · rw [ConfluenceRenderer.header, h]
  · intro src title alt
    rw [ConfluenceRenderer.image]
    split
    · exact h
    · exact h

/-- C10: a custom warning text equal to the empty string is falsy, so the
banner is empty, identical to the banner of the disabled (`False`)
setting, and the whole rendered page is identical to the one rendered
with the warning disabled. -/
theorem C10_empty_custom_warning (st : ConfluenceRenderer) (h : st.warning = .text "") :
    st._render_warning = "" ∧
    st._render_warning
      = ({ st with warning := .flag false } : ConfluenceRenderer)._render_warning ∧
    ∀ content, st.layout content
      = ({ st with warning := .flag false } : ConfluenceRenderer).layout content := by
  have h1 : st._render_warning = "" := by
    rw [ConfluenceRenderer._render_warning, if_neg]
    rw [h]
    simp [WarningSetting.truthy]
  have h2 : ({ st with warning := .flag false } : ConfluenceRenderer)._render_warning = "" := rfl
  refine ⟨h1, by rw [h1, h2], ?_⟩
  intro content
  rw [layout_eq, layout_eq]
  have e1 : ({ st with warning := .flag false } : ConfluenceRenderer).tocOf = st.tocOf := rfl
  have e2 : ({ st with warning := .flag false } : ConfluenceRenderer).render_authors
      = st.render_authors := rfl
  rw [e1, e2, h1, h2]

/-- C2: an image whose source has no network authority is resolved by
normalizing the join of the document directory (the dirname of the
article's absolute path) with the source; that path is appended to the
attachment list exactly once per occurrence (no deduplication), and the
returned fragment references only the base filename of the path, which
contains no directory separator. -/
theorem C2_local_image (st : ConfluenceRenderer) (src title alt : String)
    (h : netloc src = "") :
    (st.image src title alt).1.attachments
        = st.attachments ++ [normpath (joinPath (dirname st.article.absolute_path) src)] ∧
    (st.image src title alt).1.attachments.count
        (normpath (joinPath (dirname st.article.absolute_path) src))
      = st.attachments.count (normpath (joinPath (dirname st.article.absolute_path) src)) + 1 ∧
    (st.image src title alt).2
      = "<ac:image><ri:attachment ri:filename=\""
          ++ basename (normpath (joinPath (dirname st.article.absolute_path) src))
          ++ "\" /></ac:image>" ∧
    ∀ c ∈ (basename (normpath (joinPath (dirname st.article.absolute_path) src))).data,
      c ≠ '/' := by
  have himg : st.image src title alt
      = ({ st with attachments := st.attachments
              ++ [normpath (joinPath (dirname st.article.absolute_path) src)] },
         "<ac:image><ri:attachment ri:filename=\""
           ++ basename (normpath (joinPath (dirname st.article.absolute_path) src))
           ++ "\" /></ac:image>") := by
    rw [ConfluenceRenderer.image, if_neg]
    · simp [Article.absolute_director]
    · simp [h]
  refine ⟨by rw [himg], ?_, by rw [himg], basename_no_slash _⟩
  rw [himg]
  simp

/-- C3: an image whose source carries a network authority — including a
protocol-relative source with no scheme — leaves the renderer state
(in particular the attachment list) unchanged, and the returned fragment
embeds the original source string exactly as given. -/
theorem C3_external_image (st : ConfluenceRenderer) (src title alt : String)
    (h : netloc src ≠ "") :
    (st.image src title alt).1 = st ∧
    (st.image src title alt).2
      = "<ac:image><ri:url ri:value=\"" ++ src ++ "\" /></ac:image>" ∧
    strContains (st.image src title alt).2 src := by
  have himg : st.image src title alt
      = (st, "<ac:image><ri:url ri:value=\"" ++ src ++ "\" /></ac:image>") := by
    rw [ConfluenceRenderer.image, if_pos h]
  refine ⟨by rw [himg], by rw [himg], ?_⟩
  rw [himg]
  exact ⟨"<ac:image><ri:url ri:value=\"", "\" /></ac:image>", rfl⟩

theorem append_empty_str (s : String) : s ++ "" = s := by
  apply str_eq_of_data
  have e : ("" : String).data = [] := rfl
  simp only [String.data_append, e, List.append_nil]

/-- C5: when two-column layout is off, or both the TOC fragment and the
author block are empty, the page is the plain concatenation warning, TOC,
authors, body; otherwise it is the page wrapper holding (top to bottom) the
full-width warning section when the warning is nonempty, then the
two-column section whose left cell is TOC followed by authors and whose
right cell is the body — the warning never sits inside either column. -/
theorem C5_layout_composition (st : ConfluenceRenderer) (content : String) :
    (¬(st.two_column_layout = true ∧ (st.tocOf ≠ "" ∨ st.render_authors ≠ "")) →
      st.layout content = st._render_warning ++ st.tocOf ++ st.render_authors ++ content) ∧
    (st.two_column_layout = true ∧ (st.tocOf ≠ "" ∨ st.render_authors ≠ "") →
      st.layout content =
        page_head
          ++ (if st._render_warning ≠ ""
              then full_width_head ++ st._render_warning ++ full_width_tail
              else "")
          ++ two_col_head ++ st.tocOf ++ st.render_authors ++ two_col_mid
          ++ content ++ two_col_tail ++ page_tail) := by
  constructor
  · intro h
    rw [layout_eq, if_neg h]
  · intro h
    rw [layout_eq, if_pos h]
    by_cases hw : st._render_warning = ""
    · rw [hw]
      rw [if_neg (fun hne => hne rfl), if_neg (fun hne => hne rfl)]
      apply str_eq_of_data
      simp only [page_template, two_column_template, page_head, page_tail, two_col_head,
        two_col_mid, two_col_tail, String.data_append, List.append_assoc]
    · rw [if_pos hw, if_pos hw]
      apply str_eq_of_data
      simp only [page_template, two_column_template, full_with_template, page_head,
        page_tail, full_width_head, full_width_tail, two_col_head, two_col_mid,
        two_col_tail, String.data_append, List.append_assoc]

/-- C6: with `twoColumn=true` but an empty TOC fragment and an empty author
block, `layout` silently falls back to exactly the page produced with
`twoColumn=false` on the same input. -/
theorem C6_two_column_fallback (st : ConfluenceRenderer) (content : String)
    (htoc : st.tocOf = "") (hauth : st.render_authors = "") :
    ({ st with two_column_layout := true } : ConfluenceRenderer).layout content
      = ({ st with two_column_layout := false } : ConfluenceRenderer).layout content := by
  have et1 : ({ st with two_column_layout := true } : ConfluenceRenderer).tocOf = st.tocOf := rfl
  have et2 : ({ st with two_column_layout := false } : ConfluenceRenderer).tocOf = st.tocOf := rfl
  have ea1 : ({ st with two_column_layout := true } : ConfluenceRenderer).render_authors
      = st.render_authors := rfl
  have ea2 : ({ st with two_column_layout := false } : ConfluenceRenderer).render_authors
      = st.render_authors := rfl
  have ew1 : ({ st with two_column_layout := true } : ConfluenceRenderer)._render_warning
      = st._render_warning := rfl
  have ew2 : ({ st with two_column_layout := false } : ConfluenceRenderer)._render_warning
      = st._render_warning := rfl
  rw [layout_eq, layout_eq, et1, et2, ea1, ea2, ew1, ew2, htoc, hauth]
  rw [if_neg (fun hc => by rcases hc.2 with h | h <;> exact h rfl),
    if_neg (fun hc => by rcases hc.2 with h | h <;> exact h rfl)]

set_option maxRecDepth 8192 in
/-- C1: the page contains the table-of-contents fragment whenever the
render pass saw a heading and `renderToc` is on, and that fragment carries
the exclude parameter matching exactly `Authors` and `Table of Contents`;
in every other case the emitted TOC component is empty and the page equals
an assembly built with no TOC component at all (in particular it does not
depend on `renderToc` when no heading was seen). -/
theorem C1_toc_emission (st : ConfluenceRenderer) (content : String) :
    (st.has_toc ∧ st.render_toc →
      strContains (st.layout content) toc_fragment ∧
      strContains toc_fragment toc_exclude_param) ∧
    (¬(st.has_toc ∧ st.render_toc) →
      st.tocOf = "" ∧ st.layout content = layoutNoToc st content) := by
  constructor
  · intro h
    have ht : st.tocOf = toc_fragment := by rw [ConfluenceRenderer.tocOf, if_pos h]
    constructor
    · rw [layout_eq, ht]
      split
      · refine ⟨page_head
            ++ (if st._render_warning ≠ ""
                then full_with_template st._render_warning else st._render_warning)
            ++ two_col_head,
          st.render_authors ++ two_col_mid ++ content ++ two_col_tail ++ page_tail, ?_⟩
        apply str_eq_of_data
        simp only [page_template, two_column_template, page_head, page_tail, two_col_head,
          two_col_mid, two_col_tail, String.data_append, List.append_assoc]
      · refine ⟨st._render_warning, st.render_authors ++ content, ?_⟩
        apply str_eq_of_data
        simp only [String.data_append, List.append_assoc]
    · exact ⟨"\n<h1>Table of Contents</h1>\n<p><ac:structured-macro ac:name=\"toc\" ac:schema-version=\"1\">\n    ",
        "\n</ac:structured-macro></p>\n", by decide⟩
  · intro h
    have ht : st.tocOf = "" := by rw [ConfluenceRenderer.tocOf, if_neg h]
    refine ⟨ht, ?_⟩
    rw [layout_eq, ht]
    unfold layoutNoToc
    by_cases hc : st.two_column_layout = true ∧ st.render_authors ≠ ""
    · rw [if_pos ⟨hc.1, Or.inr hc.2⟩, if_pos hc, empty_append_str]
    · rw [if_neg (fun hk => hc ⟨hk.1, by rcases hk.2 with h2 | h2; exact absurd rfl h2; exact h2⟩),
        if_neg hc, append_empty_str]

/-- Model validation: the spec's worked example for local image resolution. -/
theorem image_path_example :
    normpath (joinPath (dirname "/docs/posts/intro.md") "img/diagram.png")
      = "/docs/posts/img/diagram.png" := by decide

/-- Model validation: authority extraction on the spec's example sources. -/
theorem netloc_examples :
    netloc "https://cdn.example.com/a.png" = "cdn.example.com" ∧
    netloc "//host/x" = "host" ∧
    netloc "img/diagram.png" = "" ∧
    netloc "123://host/x" = "" := by
  refine ⟨by decide, by decide, by decide, by decide⟩

theorem C1_toc_emission_witness :
    strContains
      (((ConfluenceRenderer.init sampleArticle none (.flag true) true false).header).layout
        "<p>body</p>")
      toc_fragment ∧
    strContains toc_fragment toc_exclude_param :=
  (C1_toc_emission ((ConfluenceRenderer.init sampleArticle none (.flag true) true false).header)
    "<p>body</p>").1 ⟨rfl, rfl⟩

theorem C2_local_image_witness :
    ((ConfluenceRenderer.init sampleArticle none (.flag true) true false).image
        "img/diagram.png" "title" "alt").1.attachments
      = [] ++ [normpath (joinPath (dirname sampleArticle.absolute_path) "img/diagram.png")] :=
  (C2_local_image (ConfluenceRenderer.init sampleArticle none (.flag true) true false)
    "img/diagram.png" "title" "alt" (by decide)).1

theorem C3_external_image_witness :
    ((ConfluenceRenderer.init sampleArticle none (.flag true) true false).image
        "//img.example.com/a.png" "title" "alt").1
      = ConfluenceRenderer.init sampleArticle none (.flag true) true false :=
  (C3_external_image (ConfluenceRenderer.init sampleArticle none (.flag true) true false)
    "//img.example.com/a.png" "title" "alt" (by decide)).1

theorem C5_layout_composition_witness :
    (ConfluenceRenderer.init sampleArticle (some ["u1"]) (.flag true) true false).layout "<p>b</p>"
      = (ConfluenceRenderer.init sampleArticle (some ["u1"]) (.flag true) true false)._render_warning
        ++ (ConfluenceRenderer.init sampleArticle (some ["u1"]) (.flag true) true false).tocOf
        ++ (ConfluenceRenderer.init sampleArticle (some ["u1"]) (.flag true) true false).render_authors
        ++ "<p>b</p>" :=
  (C5_layout_composition (ConfluenceRenderer.init sampleArticle (some ["u1"]) (.flag true) true false)
    "<p>b</p>").1 (by decide)

theorem C6_two_column_fallback_witness :
    ({ ConfluenceRenderer.init sampleArticle none (.flag true) true false with
        two_column_layout := true } : ConfluenceRenderer).layout "<p>b</p>"
      = ({ ConfluenceRenderer.init sampleArticle none (.flag true) true false with
            two_column_layout := false } : ConfluenceRenderer).layout "<p>b</p>" :=
  C6_two_column_fallback (ConfluenceRenderer.init sampleArticle none (.flag true) true false)
    "<p>b</p>" (by decide) (by decide)

theorem C7_warning_banner_witness :
    (ConfluenceRenderer.init sampleArticle none (.flag true) true false)._render_warning
      = warning_head ++ htmlEscape default_warning_copy ++ warning_tail :=
  (C7_warning_banner (ConfluenceRenderer.init sampleArticle none (.flag true) true false)).2.1 rfl

theorem C8_author_block_witness :
    (ConfluenceRenderer.init sampleArticle (some ["u1", "u2"]) (.flag true) true false).render_authors
      = "<h1>Authors</h1><p>"
        ++ String.intercalate "<br />" (["u1", "u2"].map author_template) ++ "</p>" :=
  (C8_author_block
    (ConfluenceRenderer.init sampleArticle (some ["u1", "u2"]) (.flag true) true false)).2.1
    (by decide)

theorem C9_authors_none_witness :
    (ConfluenceRenderer.init sampleArticle none (.flag true) true false).header.authors = [] :=
  ((C9_authors_none sampleArticle (.flag true) true false).2.2
    (ConfluenceRenderer.init sampleArticle none (.flag true) true false) rfl).2.1

theorem C10_empty_custom_warning_witness :
    (ConfluenceRenderer.init sampleArticle none (.text "") true false)._render_warning = "" :=
  (C10_empty_custom_warning (ConfluenceRenderer.init sampleArticle none (.text "") true false)
    rfl).1

end MdToConf

